import Mathlib

/-!
Shallow embedding of the Flask blog application in `src/Blog-website/main.py`.

The relational store (tables `users`, `blog_posts`, `comments`) is modelled as
lists of records; each route handler becomes a pure function from the store,
the resolved session state and the request data to a `RequestResult` holding
the HTTP response, the store after the request, the flash messages emitted,
the session after the request and the emails sent.

External collaborators are modelled at their interface:
  - `generate_password_hash(pw, method="pbkdf2", salt_length=8)` becomes the
    constructor `Password.pbkdf2 salt pw`, a tagged hash record carrying the
    fresh salt; `check_password_hash` re-derives from the stored salt, so it
    compares the underlying plaintexts exactly when the stored value is a
    pbkdf2 record.
  - `validate_on_submit()` of a WTForms form becomes a boolean request input
    (`form_valid`), true exactly when the request is a POST whose fields pass
    the form validators.
  - the SMTP relay of the `/contact` route becomes a boolean request input
    (`relay_ok`): when false (network error or rejected credentials), the
    `smtplib` call raises and the exception is not caught by the handler, so
    the request terminates with the framework-default HTTP 500 response.
  - a commit whose insert or update violates the store-level UNIQUE
    constraint on `blog_posts.title` raises an IntegrityError; neither
    `add_new_post` nor `edit_post` catches it, so the request terminates with
    HTTP 500 and the transaction is not committed.
  - flash messages are modelled by the enumeration `Flash`, one constructor
    per distinct message string in the source.
-/

namespace Blog

/-- Stored password values. `Password.plain p` is the plaintext `p` itself;
`Password.pbkdf2 salt p` models the string produced by
`generate_password_hash(p, method="pbkdf2", salt_length=8)` with the fresh
random `salt`. -/
inductive Password where
  | plain : String → Password
  | pbkdf2 : String → String → Password
deriving DecidableEq, Repr

/-- werkzeug `check_password_hash(stored, candidate)`: for a pbkdf2 record it
re-derives the hash from the stored salt, which succeeds exactly when the
candidate equals the hashed plaintext. A stored value that is not a hash
record never verifies. -/
def check_password_hash : Password → String → Bool
  | Password.pbkdf2 _ pw, candidate => pw == candidate
  | Password.plain _, _ => false

/-- Row of the `users` table (class `User`, main.py lines 63-70). -/
structure User where
  id : Nat
  email : String
  password : Password
  name : String
deriving DecidableEq, Repr

/-- Row of the `blog_posts` table (class `BlogPost`, main.py lines 74-84). -/
structure BlogPost where
  id : Nat
  author_id : Nat
  title : String
  subtitle : String
  date : String
  body : String
  img_url : String
deriving DecidableEq, Repr

/-- Row of the `comments` table (class `Comment`, main.py lines 88-95). The
`comments` relationship on `BlogPost` declares no delete cascade. -/
structure Comment where
  id : Nat
  author_id : Nat
  post_id : Nat
  text : String
deriving DecidableEq, Repr

/-- The relational store: the three tables. -/
structure Store where
  users : List User
  posts : List BlogPost
  comments : List Comment
deriving DecidableEq, Repr

/-- The flash messages the source can emit, one constructor per string:
`alreadySignedUp` for the register duplicate-email message,
`wrongPassword` for "Wrong password! Please try again!",
`emailDoesNotExist` for "Email does not exist, please try again.",
`needLoginToComment` for "You need to login or register to comment.". -/
inductive Flash where
  | alreadySignedUp : Flash
  | wrongPassword : Flash
  | emailDoesNotExist : Flash
  | needLoginToComment : Flash
deriving DecidableEq, Repr

/-- HTTP response of a handler: a rendered template, a redirect to a route
(named by its `url_for` endpoint), or an HTTP error status from `abort` or an
uncaught exception. -/
inductive Response where
  | render : String → Response
  | redirectTo : String → Response
  | httpError : Nat → Response
deriving DecidableEq, Repr

/-- An outbound email handed to `SMTP.sendmail`. -/
structure Email where
  from_addr : String
  to_addrs : String
  msg : String
deriving DecidableEq, Repr

/-- Everything observable about one handled request. `session` is the
authenticated user id recorded in the session cookie after the request
(`none` when unauthenticated). -/
structure RequestResult where
  response : Response
  store : Store
  flashes : List Flash
  session : Option Nat
  emails : List Email
deriving DecidableEq, Repr

/-- Outcome of resolving a session user id. `aborted n` is a request
terminated by `abort(n)` (a hard HTTP error page). -/
inductive UserLookup where
  | found : User → UserLookup
  | aborted : Nat → UserLookup
deriving DecidableEq, Repr

/-- The flask-login user loader (main.py lines 37-39):
`return db.get_or_404(User, user_id)`. `get_or_404` returns the row if it
exists and otherwise aborts the request with HTTP 404. -/
def load_user (s : Store) (user_id : Nat) : UserLookup :=
  match s.users.find? (fun u => u.id == user_id) with
  | some u => UserLookup.found u
  | none => UserLookup.aborted 404

/-- The `admin_only` decorator (main.py lines 104-111): if a user is
authenticated the wrapped handler runs, otherwise the request is terminated
with `abort(403)` before the handler body runs. `current_user` is the user
resolved from the session, `none` for an anonymous requester. -/
def admin_only (f : Store → User → RequestResult) (s : Store)
    (current_user : Option User) : RequestResult :=
  match current_user with
  | some u => f s u
  | none =>
    { response := Response.httpError 403, store := s, flashes := [],
      session := none, emails := [] }

/-- The `/register` route (main.py lines 123-140). On POST it looks up a user
by the submitted email; on a hit it flashes the already-signed-up message and
redirects to login, otherwise it inserts a new user whose password is the
salted pbkdf2 hash of the submitted password, logs the new user in and
redirects home. The `RegisterUser` form is constructed only on the GET path
and its validation outcome (`_form_valid`) is never consulted. `new_id` is
the primary key the store assigns to the inserted row, `salt` the random
salt drawn by `generate_password_hash`. -/
def register (method : String) (_form_valid : Bool) (s : Store)
    (sess : Option Nat) (name email password salt : String) (new_id : Nat) :
    RequestResult :=
  if method == "POST" then
    match s.users.find? (fun u => u.email == email) with
    | some _ =>
      { response := Response.redirectTo "login", store := s,
        flashes := [Flash.alreadySignedUp], session := sess, emails := [] }
    | none =>
      let new_user : User :=
        { id := new_id, email := email,
          password := Password.pbkdf2 salt password, name := name }
      { response := Response.redirectTo "get_all_posts",
        store := { s with users := s.users ++ [new_user] },
        flashes := [], session := some new_id, emails := [] }
  else
    { response := Response.render "register.html", store := s, flashes := [],
      session := sess, emails := [] }

/-- The `/login` route (main.py lines 144-160). On POST: unknown email
flashes the does-not-exist message and redirects to login; a known email with
a non-verifying password flashes the wrong-password message and redirects to
login without touching the session; a verifying password logs the user in and
redirects home. -/
def login (method : String) (s : Store) (sess : Option Nat)
    (email password : String) : RequestResult :=
  if method == "POST" then
    match s.users.find? (fun u => u.email == email) with
    | some user =>
      if check_password_hash user.password password then
        { response := Response.redirectTo "get_all_posts", store := s,
          flashes := [], session := some user.id, emails := [] }
      else
        { response := Response.redirectTo "login", store := s,
          flashes := [Flash.wrongPassword], session := sess, emails := [] }
    | none =>
      { response := Response.redirectTo "login", store := s,
        flashes := [Flash.emailDoesNotExist], session := sess, emails := [] }
  else
    { response := Response.render "login.html", store := s, flashes := [],
      session := sess, emails := [] }

/-- The `/new-post` route (main.py lines 191-210). An unauthenticated caller
gets a flash and a redirect to login. For an authenticated caller with a
valid form the handler inserts the new post (author = current user, date =
today) and commits: if another post already has the submitted title the
UNIQUE constraint on `blog_posts.title` makes the commit raise an uncaught
IntegrityError, so the request ends in HTTP 500 and the store is unchanged;
otherwise the insert commits and the caller is redirected home. -/
def add_new_post (s : Store) (current_user : Option User) (form_valid : Bool)
    (title subtitle body img_url today : String) (new_id : Nat) :
    RequestResult :=
  match current_user with
  | some u =>
    if form_valid then
      if s.posts.any (fun p => p.title == title) then
        { response := Response.httpError 500, store := s, flashes := [],
          session := some u.id, emails := [] }
      else
        let new_post : BlogPost :=
          { id := new_id, author_id := u.id, title := title,
            subtitle := subtitle, date := today, body := body,
            img_url := img_url }
        { response := Response.redirectTo "get_all_posts",
          store := { s with posts := s.posts ++ [new_post] },
          flashes := [], session := some u.id, emails := [] }
    else
      { response := Response.render "make-post.html", store := s,
        flashes := [], session := some u.id, emails := [] }
  | none =>
    { response := Response.redirectTo "login", store := s,
      flashes := [Flash.needLoginToComment], session := none, emails := [] }

/-- The assignments the edit handler performs on the found post (main.py
lines 226-230): title, subtitle, img_url, author (reassigned to the current
user `u`) and body are overwritten; the date and id columns are not
assigned. -/
def edited_post (post : BlogPost) (u : User)
    (title subtitle body img_url : String) : BlogPost :=
  { post with
    title := title, subtitle := subtitle, img_url := img_url,
    author_id := u.id, body := body }

/-- Body of the `/edit-post/<post_id>` handler (main.py lines 216-233), the
function wrapped by `admin_only`. `get_or_404` aborts with 404 when no post
has the id; on a valid submission the handler overwrites title, subtitle,
img_url, author (reassigned to the current user) and body of the found post
and commits. When the submitted title equals the title of a different stored
post, the UNIQUE constraint on `blog_posts.title` makes the commit raise an
uncaught IntegrityError, so the request ends in HTTP 500 and the transaction
is not committed; otherwise the commit succeeds and the caller is redirected
to the post detail page `url_for("show_post", post_id=post.id)`, modelled as
the route string `"post/" ++ toString post.id`. -/
def edit_post_body (s : Store) (u : User) (post_id : Nat) (form_valid : Bool)
    (title subtitle body img_url : String) : RequestResult :=
  match s.posts.find? (fun p => p.id == post_id) with
  | none =>
    { response := Response.httpError 404, store := s, flashes := [],
      session := some u.id, emails := [] }
  | some post =>
    if form_valid then
      if s.posts.any (fun p => !(p.id == post_id) && p.title == title) then
        { response := Response.httpError 500, store := s, flashes := [],
          session := some u.id, emails := [] }
      else
        let post' : BlogPost := edited_post post u title subtitle body img_url
        { response := Response.redirectTo ("post/" ++ toString post.id),
          store := { s with
            posts := s.posts.map (fun p => if p.id == post_id then post' else p) },
          flashes := [], session := some u.id, emails := [] }
    else
      { response := Response.render "make-post.html", store := s,
        flashes := [], session := some u.id, emails := [] }

/-- The `/edit-post/<post_id>` route (main.py lines 214-233): the body
wrapped by the `admin_only` gate. -/
def edit_post (s : Store) (current_user : Option User) (post_id : Nat)
    (form_valid : Bool) (title subtitle body img_url : String) :
    RequestResult :=
  admin_only
    (fun st u => edit_post_body st u post_id form_valid title subtitle body img_url)
    s current_user

/-- Body of the `/delete/<post_id>` handler (main.py lines 239-243), the
function wrapped by `admin_only`. `get_or_404` aborts with 404 when no post
has the id; otherwise `db.session.delete` removes the post row and commits,
then redirects home. The `comments` relationship declares no delete cascade,
so the comment rows referencing the post are not deleted. -/
def delete_post_body (s : Store) (u : User) (post_id : Nat) : RequestResult :=
  match s.posts.find? (fun p => p.id == post_id) with
  | none =>
    { response := Response.httpError 404, store := s, flashes := [],
      session := some u.id, emails := [] }
  | some _ =>
    { response := Response.redirectTo "get_all_posts",
      store := { s with posts := s.posts.filter (fun p => !(p.id == post_id)) },
      flashes := [], session := some u.id, emails := [] }

/-- The `/delete/<post_id>` route (main.py lines 237-243): the body wrapped
by the `admin_only` gate. -/
def delete_post (s : Store) (current_user : Option User) (post_id : Nat) :
    RequestResult :=
  admin_only (fun st u => delete_post_body st u post_id) s current_user

/-- The message string built by the `/contact` handler (main.py lines
261-264): the f-string handed to `SMTP.sendmail`. -/
def contact_message (name phone message : String) : String :=
  "Subject:New Message \n\n" ++
    ("Name: " ++ name ++ "\n") ++
    ("Phone no.: " ++ phone ++ "\n") ++
    ("Message: " ++ message)

/-- The `/contact` route (main.py lines 253-266). On POST it opens an SMTP
connection and sends one email from and to the operator address `my_email`
with the message built by `contact_message`. When the relay fails
(`relay_ok = false`) the raised exception is not caught and the request ends
in the framework-default HTTP 500 with no flash and no retry. On success the
`redirect(url_for("contact"))` value is discarded (it is not returned), so
the handler falls through to rendering `contact.html`. -/
def contact (method : String) (relay_ok : Bool) (s : Store)
    (sess : Option Nat) (my_email name phone message : String) :
    RequestResult :=
  if method == "POST" then
    if relay_ok then
      { response := Response.render "contact.html", store := s, flashes := [],
        session := sess,
        emails := [{ from_addr := my_email, to_addrs := my_email,
                     msg := contact_message name phone message }] }
    else
      { response := Response.httpError 500, store := s, flashes := [],
        session := sess, emails := [] }
  else
    { response := Response.render "contact.html", store := s, flashes := [],
      session := sess, emails := [] }

/-- Concrete fixture: a registered user. -/
def alice : User :=
  { id := 1, email := "a@x.com", password := Password.pbkdf2 "s1" "pw1",
    name := "A" }

/-- Concrete fixture: a second registered user, not the author of `post1`. -/
def bob : User :=
  { id := 2, email := "b@x.com", password := Password.pbkdf2 "s2" "pw2",
    name := "B" }

/-- Concrete fixture: a stored post authored by `alice`. -/
def post1 : BlogPost :=
  { id := 1, author_id := 1, title := "T1", subtitle := "S1",
    date := "April 03, 2025", body := "B1", img_url := "http://x/img.png" }

/-- Concrete fixture: a stored comment on `post1`. -/
def comment1 : Comment :=
  { id := 1, author_id := 2, post_id := 1, text := "Nice!" }

/-- Concrete fixture: the empty store. -/
def store0 : Store := { users := [], posts := [], comments := [] }

/-- Concrete fixture: a store with `alice`, `bob`, `post1` and `comment1`. -/
def store1 : Store :=
  { users := [alice, bob], posts := [post1], comments := [comment1] }

/-- Concrete fixture: a second stored post, authored by `bob`, whose title
"T2" differs from the title of `post1`. -/
def post2 : BlogPost :=
  { id := 2, author_id := 2, title := "T2", subtitle := "S2",
    date := "April 04, 2025", body := "B2", img_url := "http://x/img2.png" }

/-- Concrete fixture: `store1` extended with `post2`, so the store holds two
posts with distinct titles "T1" and "T2". -/
def store2 : Store :=
  { users := [alice, bob], posts := [post1, post2], comments := [comment1] }

/-- C1: evaluation of the delete route at the failing input. Deleting post 1
(store holding one post with id 1 and one comment whose post_id is 1, caller
authenticated) removes the post row, yet the comment whose `post_id`
references the deleted post survives in the comments table: the `comments`
relationship declares no delete cascade, so DeletePost does not remove the
referencing Comments, contrary to the claim. -/
theorem delete_post_retains_referencing_comment :
    (delete_post store1 (some alice) 1).store.posts = [] ∧
    comment1 ∈ (delete_post store1 (some alice) 1).store.comments ∧
    comment1.post_id = post1.id := by decide

/-- C2 counterexample: an unauthenticated request to the edit-post route for
the nonexistent post id 1 (empty store) yields HTTP 403 from the access
gate, not the HTTP 404 the claim requires regardless of authentication
state. -/
theorem edit_post_unauthenticated_missing_id_403 :
    store0.posts.find? (fun p => p.id == 1) = none ∧
    (edit_post store0 none 1 false "t" "s" "b" "i").response =
      Response.httpError 403 ∧
    (edit_post store0 none 1 false "t" "s" "b" "i").response ≠
      Response.httpError 404 := by decide

/-- C2 amended: for every authenticated requester, the edit-post route on a
post id with no stored Post yields HTTP 404; an unauthenticated requester
instead receives HTTP 403 from the access gate before the lookup runs. -/
theorem edit_post_missing_id_contract
    (s : Store) (u : User) (pid : Nat) (fv : Bool) (t st b iu : String)
    (h : s.posts.find? (fun p => p.id == pid) = none) :
    (edit_post s (some u) pid fv t st b iu).response =
      Response.httpError 404 ∧
    (edit_post s none pid fv t st b iu).response = Response.httpError 403 := by
  constructor
  · simp [edit_post, admin_only, edit_post_body, h]
  · rfl

/-- C2 witness: the amended contract at the empty store with post id 1 and
requester alice. -/
theorem edit_post_missing_id_contract_witness :
    store0.posts.find? (fun p => p.id == 1) = none ∧
    (edit_post store0 (some alice) 1 true "t" "s" "b" "i").response =
      Response.httpError 404 :=
  ⟨by decide,
   (edit_post_missing_id_contract store0 alice 1 true "t" "s" "b" "i"
     (by decide)).1⟩

/-- C3: evaluation of the session user loader at the failing input. For a
stored session id (1) that no longer identifies a stored User, `load_user`
terminates the request with a hard HTTP 404 (`db.get_or_404`) instead of
treating it as unauthenticated; when the user exists it resolves to the
stored User. -/
theorem load_user_hard_error_on_stale_session :
    load_user store0 1 = UserLookup.aborted 404 ∧
    load_user store1 1 = UserLookup.found alice := by decide

/-- C4 counterexample: an authenticated user (alice) submits a valid
CreatePost whose title "T1" equals the title of the stored post1. The
request ends in HTTP 500 (uncaught store-level uniqueness violation) with no
flash message, contradicting the claim that the failure is surfaced as a
flash message plus a redirect and never as an HTTP error status. -/
theorem add_new_post_duplicate_title_cex :
    (add_new_post store1 (some alice) true "T1" "S2" "B2" "http://y"
      "May 01, 2025" 2).response = Response.httpError 500 ∧
    (add_new_post store1 (some alice) true "T1" "S2" "B2" "http://y"
      "May 01, 2025" 2).flashes = [] ∧
    (add_new_post store1 (some alice) true "T1" "S2" "B2" "http://y"
      "May 01, 2025" 2).store.posts.countP (fun p => p.title == "T1") = 1 := by
  decide

/-- C4 amended: for every authenticated user submitting a valid CreatePost
whose title is already held by exactly one stored Post, the handler performs
no duplicate check of its own; the store-level uniqueness violation on
commit propagates as an unhandled HTTP 500 with no flash message, and the
store retains exactly one Post with that title. -/
theorem add_new_post_duplicate_title_contract
    (s : Store) (u : User) (t st b iu today : String) (nid : Nat)
    (h : s.posts.countP (fun p => p.title == t) = 1) :
    (add_new_post s (some u) true t st b iu today nid).response =
      Response.httpError 500 ∧
    (add_new_post s (some u) true t st b iu today nid).flashes = [] ∧
    (add_new_post s (some u) true t st b iu today
      nid).store.posts.countP (fun p => p.title == t) = 1 := by
  have hpos : 0 < s.posts.countP (fun p => p.title == t) := by omega
  have hany : s.posts.any (fun p => p.title == t) = true := by
    rcases List.countP_pos_iff.mp hpos with ⟨a, ha, hpa⟩
    exact List.any_eq_true.mpr ⟨a, ha, hpa⟩
  simp [add_new_post, hany, h]

/-- C4 witness: the amended contract at store1, whose single post holds the
title "T1". -/
theorem add_new_post_duplicate_title_contract_witness :
    store1.posts.countP (fun p => p.title == "T1") = 1 ∧
    (add_new_post store1 (some bob) true "T1" "x" "y" "z" "d" 9).response =
      Response.httpError 500 :=
  ⟨by decide,
   (add_new_post_duplicate_title_contract store1 bob "T1" "x" "y" "z" "d" 9
     (by decide)).1⟩

/-- C5: the access gate on the edit-post and delete routes. An
unauthenticated caller gets HTTP 403 and the store is left unchanged (in
particular every stored Post, including the target of a gated delete,
remains); for every authenticated caller the gated route equals the wrapped
handler body, which therefore runs normally. -/
theorem access_gate_contract
    (s : Store) (post_id : Nat) (fv : Bool) (t st b iu : String) :
    (edit_post s none post_id fv t st b iu).response =
      Response.httpError 403 ∧
    (edit_post s none post_id fv t st b iu).store = s ∧
    (delete_post s none post_id).response = Response.httpError 403 ∧
    (delete_post s none post_id).store = s ∧
    (∀ u : User, edit_post s (some u) post_id fv t st b iu =
      edit_post_body s u post_id fv t st b iu) ∧
    (∀ u : User, delete_post s (some u) post_id =
      delete_post_body s u post_id) :=
  ⟨rfl, rfl, rfl, rfl, fun _ => rfl, fun _ => rfl⟩

/-- C6: the register contract. A POST whose email matches a stored User
flashes the duplicate-email message, redirects to login, leaves the store
unchanged and so keeps exactly one User with that email; a POST with a fresh
email appends a new User whose password field is the salted pbkdf2 hash
(structurally distinct from every plaintext value), establishes a session
for the new user and redirects to the home route. -/
theorem register_contract
    (s : Store) (sess : Option Nat) (name email pw salt : String)
    (nid : Nat) :
    (∀ u, s.users.find? (fun x => x.email == email) = some u →
      (register "POST" true s sess name email pw salt nid).response =
        Response.redirectTo "login" ∧
      (register "POST" true s sess name email pw salt nid).flashes =
        [Flash.alreadySignedUp] ∧
      (register "POST" true s sess name email pw salt nid).store = s ∧
      (s.users.countP (fun x => x.email == email) = 1 →
        (register "POST" true s sess name email pw salt
          nid).store.users.countP (fun x => x.email == email) = 1)) ∧
    (s.users.find? (fun x => x.email == email) = none →
      (register "POST" true s sess name email pw salt nid).store.users =
        s.users ++ [{ id := nid, email := email,
                      password := Password.pbkdf2 salt pw, name := name }] ∧
      (∀ q, Password.pbkdf2 salt pw ≠ Password.plain q) ∧
      (register "POST" true s sess name email pw salt nid).session =
        some nid ∧
      (register "POST" true s sess name email pw salt nid).response =
        Response.redirectTo "get_all_posts") := by
  constructor
  · intro u hu
    simp [register, hu]
  · intro hn
    simp [register, hn]

/-- C6 witness: registering a fresh email on the empty store establishes the
new session; re-registering the stored email of alice leaves store1
unchanged. -/
theorem register_contract_witness :
    store0.users.find? (fun x => x.email == "a@x.com") = none ∧
    (register "POST" true store0 none "A" "a@x.com" "pw1" "s1" 1).session =
      some 1 ∧
    store1.users.find? (fun x => x.email == "a@x.com") = some alice ∧
    (register "POST" true store1 none "A2" "a@x.com" "pw2" "s2" 9).store =
      store1 :=
  ⟨by decide,
   ((register_contract store0 none "A" "a@x.com" "pw1" "s1" 1).2
     (by decide)).2.2.1,
   by decide,
   ((register_contract store1 none "A2" "a@x.com" "pw2" "s2" 9).1 alice
     (by decide)).2.2.1⟩

/-- C7: the login contract. Unknown email: does-not-exist flash, redirect to
login, store and session unchanged. Known email with a non-verifying
password: wrong-password flash, redirect to login, session unchanged (no
session established) and store unchanged. Verifying password: session
established for that user, redirect to the home route, no flash. -/
theorem login_contract (s : Store) (sess : Option Nat) (email pw : String) :
    (s.users.find? (fun u => u.email == email) = none →
      (login "POST" s sess email pw).response = Response.redirectTo "login" ∧
      (login "POST" s sess email pw).flashes = [Flash.emailDoesNotExist] ∧
      (login "POST" s sess email pw).store = s ∧
      (login "POST" s sess email pw).session = sess) ∧
    (∀ u, s.users.find? (fun x => x.email == email) = some u →
      check_password_hash u.password pw = false →
      (login "POST" s sess email pw).response = Response.redirectTo "login" ∧
      (login "POST" s sess email pw).flashes = [Flash.wrongPassword] ∧
      (login "POST" s sess email pw).session = sess ∧
      (login "POST" s sess email pw).store = s) ∧
    (∀ u, s.users.find? (fun x => x.email == email) = some u →
      check_password_hash u.password pw = true →
      (login "POST" s sess email pw).response =
        Response.redirectTo "get_all_posts" ∧
      (login "POST" s sess email pw).session = some u.id ∧
      (login "POST" s sess email pw).flashes = []) := by
  refine ⟨?_, ?_, ?_⟩
  · intro hn
    simp [login, hn]
  · intro u hu hpw
    simp [login, hu, hpw]
  · intro u hu hpw
    simp [login, hu, hpw]

/-- C7 witness: alice with the wrong password gets the wrong-password flash
and no session; alice with the right password gets a session. -/
theorem login_contract_witness :
    store1.users.find? (fun x => x.email == "a@x.com") = some alice ∧
    check_password_hash alice.password "bad" = false ∧
    (login "POST" store1 none "a@x.com" "bad").flashes =
      [Flash.wrongPassword] ∧
    (login "POST" store1 none "a@x.com" "bad").session = none ∧
    check_password_hash alice.password "pw1" = true ∧
    (login "POST" store1 none "a@x.com" "pw1").session = some 1 :=
  ⟨by decide, by decide,
   ((login_contract store1 none "a@x.com" "bad").2.1 alice (by decide)
     (by decide)).2.1,
   ((login_contract store1 none "a@x.com" "bad").2.1 alice (by decide)
     (by decide)).2.2.1,
   by decide,
   ((login_contract store1 none "a@x.com" "pw1").2.2 alice (by decide)
     (by decide)).2.1⟩

/-- C8 counterexample: bob submits a valid edit of the stored post 1 whose
submitted title "T2" equals the title of the different stored post 2. The
commit violates the UNIQUE constraint on `blog_posts.title`: the request
ends in HTTP 500, the store is unchanged (no field is overwritten) and the
caller is not redirected to the post detail page, contradicting the claim
that every valid authenticated edit overwrites the fields and redirects. -/
theorem edit_post_title_collision_cex :
    store2.posts.find? (fun p => p.id == 1) = some post1 ∧
    (edit_post store2 (some bob) 1 true "T2" "S2" "B2" "u2").response =
      Response.httpError 500 ∧
    (edit_post store2 (some bob) 1 true "T2" "S2" "B2" "u2").store = store2 ∧
    (edit_post store2 (some bob) 1 true "T2" "S2" "B2" "u2").response ≠
      Response.redirectTo "post/1" := by decide

/-- C8 amended: the edit contract. For a stored post and any authenticated
user submitting a valid edit form whose title is not already held by a
different stored post, the stored post is replaced by `edited_post`, which
overwrites exactly title, subtitle, body and img_url with the submitted
values and reassigns the author to the submitting user while keeping date
and id; the other tables are untouched and the caller is redirected to the
post detail page. When the submitted title does collide with a different
stored post's title, the store-level uniqueness violation on commit
propagates as an unhandled HTTP 500 with no flash and nothing persisted. -/
theorem edit_post_overwrite_contract
    (s : Store) (u : User) (pid : Nat) (post : BlogPost)
    (t st b iu : String)
    (h : s.posts.find? (fun p => p.id == pid) = some post) :
    (s.posts.any (fun p => !(p.id == pid) && p.title == t) = false →
      (edit_post s (some u) pid true t st b iu).store.posts =
        s.posts.map
          (fun p => if p.id == pid then edited_post post u t st b iu else p) ∧
      (edited_post post u t st b iu).title = t ∧
      (edited_post post u t st b iu).subtitle = st ∧
      (edited_post post u t st b iu).body = b ∧
      (edited_post post u t st b iu).img_url = iu ∧
      (edited_post post u t st b iu).author_id = u.id ∧
      (edited_post post u t st b iu).date = post.date ∧
      (edited_post post u t st b iu).id = post.id ∧
      (edit_post s (some u) pid true t st b iu).store.users = s.users ∧
      (edit_post s (some u) pid true t st b iu).store.comments =
        s.comments ∧
      (edit_post s (some u) pid true t st b iu).response =
        Response.redirectTo ("post/" ++ toString post.id)) ∧
    (s.posts.any (fun p => !(p.id == pid) && p.title == t) = true →
      (edit_post s (some u) pid true t st b iu).response =
        Response.httpError 500 ∧
      (edit_post s (some u) pid true t st b iu).store = s ∧
      (edit_post s (some u) pid true t st b iu).flashes = []) := by
  constructor
  · intro hno
    simp [edit_post, admin_only, edit_post_body, edited_post, h, hno]
  · intro hyes
    simp [edit_post, admin_only, edit_post_body, h, hyes]

/-- C8 witness: bob (not the author of post1) edits post1 in store1 with the
fresh title "T2" and is redirected to the detail page of post 1; bob edits
post1 in store2, where post2 already holds the title "T2", and the request
ends in HTTP 500. -/
theorem edit_post_overwrite_contract_witness :
    store1.posts.find? (fun p => p.id == 1) = some post1 ∧
    store1.posts.any (fun p => !(p.id == 1) && p.title == "T2") = false ∧
    (edit_post store1 (some bob) 1 true "T2" "S2" "B2" "u2").response =
      Response.redirectTo "post/1" ∧
    store2.posts.any (fun p => !(p.id == 1) && p.title == "T2") = true ∧
    (edit_post store2 (some bob) 1 true "T2" "S2" "B2" "u2").response =
      Response.httpError 500 :=
  ⟨by decide, by decide,
   ((edit_post_overwrite_contract store1 bob 1 post1 "T2" "S2" "B2" "u2"
     (by decide)).1 (by decide)).2.2.2.2.2.2.2.2.2.2,
   by decide,
   ((edit_post_overwrite_contract store2 bob 1 post1 "T2" "S2" "B2" "u2"
     (by decide)).2 (by decide)).1⟩

/-- C9: the contact contract. A POST with a working relay sends exactly one
email, from and to the operator address, whose message is the fixed string
with subject line "New Message" followed by the submitted name, phone and
message, and the store is unchanged; a failing relay is not caught and the
request ends in HTTP 500 with no flash and no email sent. -/
theorem contact_contract (s : Store) (sess : Option Nat)
    (my_email name phone message : String) :
    (contact "POST" true s sess my_email name phone message).emails =
      [{ from_addr := my_email, to_addrs := my_email,
         msg := "Subject:New Message \n\n" ++ ("Name: " ++ name ++ "\n") ++
           ("Phone no.: " ++ phone ++ "\n") ++ ("Message: " ++ message) }] ∧
    (contact "POST" true s sess my_email name phone message).store = s ∧
    (contact "POST" false s sess my_email name phone message).response =
      Response.httpError 500 ∧
    (contact "POST" false s sess my_email name phone message).flashes = [] ∧
    (contact "POST" false s sess my_email name phone message).emails = [] :=
  ⟨rfl, rfl, rfl, rfl, rfl⟩

/-- C10: the register handler never consults form validation. For any two
validation outcomes the POST result is identical, and with a fresh email the
new User is persisted (with the hashed password) and logged in whatever the
validation outcome is. -/
theorem register_ignores_form_validation
    (s : Store) (sess : Option Nat) (name email pw salt : String)
    (nid : Nat) (v w : Bool)
    (h : s.users.find? (fun u => u.email == email) = none) :
    register "POST" v s sess name email pw salt nid =
      register "POST" w s sess name email pw salt nid ∧
    (register "POST" v s sess name email pw salt nid).store.users =
      s.users ++ [{ id := nid, email := email,
                    password := Password.pbkdf2 salt pw, name := name }] ∧
    (register "POST" v s sess name email pw salt nid).session = some nid := by
  refine ⟨rfl, ?_, ?_⟩ <;> simp [register, h]

/-- C10 witness: on the empty store a POST with a failing form validation
still persists and logs in the new user, with the same result as a passing
validation. -/
theorem register_ignores_form_validation_witness :
    store0.users.find? (fun u => u.email == "a@x.com") = none ∧
    register "POST" false store0 none "A" "a@x.com" "pw1" "s1" 1 =
      register "POST" true store0 none "A" "a@x.com" "pw1" "s1" 1 ∧
    (register "POST" false store0 none "A" "a@x.com" "pw1" "s1" 1).session =
      some 1 :=
  ⟨by decide,
   (register_ignores_form_validation store0 none "A" "a@x.com" "pw1" "s1" 1
     false true (by decide)).1,
   (register_ignores_form_validation store0 none "A" "a@x.com" "pw1" "s1" 1
     false true (by decide)).2.2⟩

end Blog
